import Mathlib

/-!
# Verification of the deephaven-ib TWS client against its specification

Shallow embedding of the event-dispatch core of `deephaven_ib/_tws/tws_client.py`
and of the declarative column-mapping loggers of `dhib/tws/_ibtypelogger.py`.

Conventions of the embedding:
* Python floats are carried opaquely (no arithmetic is ever performed on them in
  the embedded code paths), so they are represented by an abstract `PyFloat`
  payload relayed value-for-value.
* Python dicts keyed by request id are association lists with
  insert-replaces-key semantics; Python sets of strings are `List String` with
  membership semantics.
* Each IB callback of `IbTwsClient` becomes a function from a client state and
  the callback arguments to a `DispatchResult`: the (possibly raised) error, the
  state at the point control leaves the handler, and the list of outbound IB
  messages issued by the handler.  A Python `raise` is an error value carrying
  the state as already mutated at the raise point.
* Helper modules of this repository that are not part of the provided sources
  (`_internal/requests.py`, `_internal/tablewriter.py` internals,
  `deephaven_ib/_tws/ib_type_logger.py`, `contract_registry.py`, `time.py`) are
  modelled from the specification; their definitions say so in their doc
  comments.
-/

set_option linter.unusedVariables false

/-- Opaque payload of a Python float.  The embedded code never computes with
float values - it only relays them into table cells - so an abstract integer
payload represents them faithfully. -/
abbrev PyFloat := Int

/-- A single cell of an output-table row, covering the table engine's scalar
type system (32/64-bit integer, 64-bit float, boolean, string, datetime,
string-set) plus the absent (Python `None`) value. -/
inductive Cell where
  | int : Int → Cell
  | float : PyFloat → Cell
  | bool : Bool → Cell
  | str : String → Cell
  | dt : Int → Cell
  | strset : List String → Cell
  | none : Cell
deriving DecidableEq, Repr

/-- One row of an output table, in declared column order. -/
abbrev Row := List Cell

/-- The table engine's column types (`deephaven.Types` / `dht`). -/
inductive DhType where
  | int32 | int64 | float64 | bool_ | string | datetime | stringset
deriving DecidableEq, Repr

/-- Modelled from the spec: `map_values(value, table, default)` looks up
`value` in `table`; returns the mapped label, or, if absent from the table, the
literal fallback string `UNKNOWN(value)`; returns an absent input unchanged
(`_logging_utils.py` / `_internal` helpers are not among the provided
sources). -/
def map_values (value : Option Int) (table : List (Int × String)) : Option String :=
  value.map fun v => (table.lookup v).getD ("UNKNOWN(" ++ toString v ++ ")")

/-- Modelled from the spec: `to_string_val` renders a single value as text,
absent-preserving. -/
def to_string_val (value : Option String) : Option String := value

/-- Modelled from the spec: `to_string_set` renders an iterable of values as a
deduplicated set-of-strings container, absent-preserving at the element level. -/
def to_string_set (values : List String) : Cell :=
  Cell.strset values.dedup

/-- Render an optional string into a cell (`None` becomes the absent cell). -/
def cellOfOptStr : Option String → Cell
  | Option.none => Cell.none
  | Option.some s => Cell.str s

/-- Modelled from the spec: `unix_sec_to_dh_datetime` converts a count of
seconds since the Unix epoch into the engine's native datetime value
(`deephaven_ib/time.py` is not among the provided sources). -/
def unix_sec_to_dh_datetime (seconds : Int) : Cell :=
  Cell.dt seconds

example : map_values (Option.some 2) [(1, "NEWS"), (2, "EXCHANGE_AVAILABLE")]
    = Option.some "EXCHANGE_AVAILABLE" := by decide

example : map_values (Option.some 9) [(1, "NEWS")] = Option.some "UNKNOWN(9)" := by decide

/-! ## IB domain objects (external `ibapi` types, fields as used by this repo) -/

/-- An IB Contract (the fields read by this repository's loggers and
fingerprinting; `ibapi.contract.Contract`). -/
structure Contract where
  conId : Int
  secId : String
  secIdType : String
  secType : String
  symbol : String
  localSymbol : String
  tradingClass : String
  currency : String
  exchange : String
  primaryExchange : String
  lastTradeDateOrContractMonth : String
  strike : PyFloat
  right : String
  multiplier : String
  comboLegsDescrip : String
  comboLegs : List String
  deltaNeutralContract : Option String
deriving DecidableEq, Repr

/-- An IB OrderState (`ibapi.order_state.OrderState`). -/
structure OrderState where
  status : String
  initMarginBefore : String
  maintMarginBefore : String
  equityWithLoanBefore : String
  initMarginChange : String
  maintMarginChange : String
  equityWithLoanChange : String
  initMarginAfter : String
  maintMarginAfter : String
  equityWithLoanAfter : String
  commission : PyFloat
  minCommission : PyFloat
  maxCommission : PyFloat
  commissionCurrency : String
  warningText : String
  completedTime : String
  completedStatus : String
deriving DecidableEq, Repr

/-- An IB Order (external `ibapi.order.Order`, which carries well over one
hundred fields; only the fields this development's claims touch are listed -
the reported-order-id consistency check reads `orderId`). -/
structure Order where
  orderId : Int
  clientId : Int
  permId : Int
  action : String
  totalQuantity : Int
  orderType : String
  lmtPrice : PyFloat
  auxPrice : PyFloat
deriving DecidableEq, Repr

/-- Tick attributes of a price tick (`ibapi.common.TickAttrib`). -/
structure TickAttrib where
  canAutoExecute : Bool
  pastLimit : Bool
  preOpen : Bool
deriving DecidableEq, Repr

/-- Tick attributes of a last-trade tick (`ibapi.common.TickAttribLast`). -/
structure TickAttribLast where
  pastLimit : Bool
  unreported : Bool
deriving DecidableEq, Repr

/-- Tick attributes of a bid/ask tick (`ibapi.common.TickAttribBidAsk`). -/
structure TickAttribBidAsk where
  bidPastLow : Bool
  askPastHigh : Bool
deriving DecidableEq, Repr

/-- A historical last-trade tick (`ibapi.common.HistoricalTickLast`), fields in
the order `tickByTickAllLast` assigns them. -/
structure HistoricalTickLast where
  time : Int
  tickAttribLast : TickAttribLast
  price : PyFloat
  size : Int
  exchange : String
  specialConditions : String
deriving DecidableEq, Repr

/-- A historical bid/ask tick (`ibapi.common.HistoricalTickBidAsk`). -/
structure HistoricalTickBidAsk where
  time : Int
  tickAttribBidAsk : TickAttribBidAsk
  priceBid : PyFloat
  priceAsk : PyFloat
  sizeBid : Int
  sizeAsk : Int
deriving DecidableEq, Repr

/-- A historical bar (`ibapi.common.BarData`); `date` is IB's textual field.
The Python attribute `open` is spelled `open_` here because `open` is a Lean
keyword. -/
structure BarData where
  date : String
  open_ : PyFloat
  high : PyFloat
  low : PyFloat
  close : PyFloat
  volume : Int
  barCount : Int
  average : PyFloat
deriving DecidableEq, Repr

/-- A real-time bar (`ibapi.common.RealTimeBar`), fields in the keyword order
`realtimeBar` constructs them with (`open_` as in the Python keyword). -/
structure RealTimeBar where
  time : Int
  endTime : Int
  open_ : PyFloat
  high : PyFloat
  low : PyFloat
  close : PyFloat
  volume : Int
  wap : PyFloat
  count : Int
deriving DecidableEq, Repr

/-- An IB family code (`ibapi.common.FamilyCode`). -/
structure FamilyCode where
  accountID : String
  familyCodeStr : String
deriving DecidableEq, Repr

/-- An IB price increment (`ibapi.common.PriceIncrement`). -/
structure PriceIncrement where
  lowEdge : PyFloat
  increment : PyFloat
deriving DecidableEq, Repr

/-- IB contract details (`ibapi.contract.ContractDetails`): the underlying
contract plus the detail fields read by `IbContractDetailsLogger` and by
`request_market_rules` (`marketRuleIds` is the comma-separated rule-id list). -/
structure ContractDetails where
  contract : Contract
  marketName : String
  minTick : PyFloat
  orderTypes : String
  validExchanges : String
  priceMagnifier : Int
  underConId : Int
  longName : String
  contractMonth : String
  industry : String
  category : String
  subcategory : String
  timeZoneId : String
  tradingHours : String
  liquidHours : String
  evRule : String
  evMultiplier : Int
  mdSizeMultiplier : Int
  aggGroup : Int
  underSymbol : String
  underSecType : String
  marketRuleIds : String
  secIdList : List String
  realExpirationDate : String
  lastTradeTime : String
  stockType : String
  cusip : String
  ratings : String
  descAppend : String
  bondType : String
  couponType : String
  callable : Bool
  putable : Bool
  coupon : Int
  convertible : Bool
  maturity : String
  issueDate : String
  nextOptionDate : String
  nextOptionType : String
  nextOptionPartial : Bool
  notes : String
deriving DecidableEq, Repr

/-! ## Complex-Type Column-Mapping Loggers (`dhib/tws/_ibtypelogger.py`) -/

/-- Base class for logging complex IB types: an ordered list of
(column name, column type, extraction function) triples
(`IbComplexTypeLogger` in `_ibtypelogger.py`). -/
structure IbComplexTypeLogger (α : Type) where
  column_details : List (String × DhType × (α → Cell))

/-- Column names (`IbComplexTypeLogger.names`). -/
def IbComplexTypeLogger.names (L : IbComplexTypeLogger α) : List String :=
  L.column_details.map fun cd => cd.1

/-- Column types (`IbComplexTypeLogger.types`). -/
def IbComplexTypeLogger.types (L : IbComplexTypeLogger α) : List DhType :=
  L.column_details.map fun cd => cd.2.1

/-- Column values extracted from the IB object (`IbComplexTypeLogger.vals`). -/
def IbComplexTypeLogger.vals (L : IbComplexTypeLogger α) (ib_obj : α) : List Cell :=
  L.column_details.map fun cd => cd.2.2 ib_obj

/-- Helper of `pySplit`: walk the character list, cutting at the separator. -/
def pySplitAux (sep : Char) : List Char → List Char → List String
  | [], acc => [String.mk acc.reverse]
  | c :: cs, acc =>
    if c = sep then String.mk acc.reverse :: pySplitAux sep cs []
    else pySplitAux sep cs (c :: acc)

/-- Python `s.split(sep)` for a one-character separator, over the string's
character list (so that concrete runs reduce; behaviour agrees with Python for
the comma separator the code uses, including `"".split(",") == [""]`). -/
def pySplit (s : String) (sep : Char) : List String :=
  pySplitAux sep s.data []

/-- One decimal digit of Python `int`. -/
def pyDigit? (c : Char) : Option Nat :=
  if '0' ≤ c ∧ c ≤ '9' then Option.some (c.toNat - '0'.toNat) else Option.none

/-- Helper of `pyParseInt`: after an initial digit has been consumed, accept
further digits, allowing a single underscore between two digits (PEP 515:
`1_2` parses, `1__2`, `1_` and `_1` do not). -/
def pyParseNatAux : List Char → Nat → Option Nat
  | [], acc => Option.some acc
  | '_' :: c :: cs, acc =>
    match pyDigit? c with
    | Option.some d => pyParseNatAux cs (acc * 10 + d)
    | Option.none => Option.none
  | ['_'], _ => Option.none
  | c :: cs, acc =>
    match pyDigit? c with
    | Option.some d => pyParseNatAux cs (acc * 10 + d)
    | Option.none => Option.none

/-- The digit run of Python `int`: at least one digit, then digits with single
underscores permitted between digits. -/
def pyParseNat? : List Char → Option Nat
  | [] => Option.none
  | c :: cs =>
    match pyDigit? c with
    | Option.some d => pyParseNatAux cs d
    | Option.none => Option.none

/-- The ASCII whitespace characters Python `int` strips (space, tab, newline,
carriage return, vertical tab, form feed). -/
def isPySpace (c : Char) : Bool :=
  c == ' ' || c == '\t' || c == '\n' || c == '\r' || c == Char.ofNat 11 || c == Char.ofNat 12

/-- Strip leading and trailing whitespace from a character list. -/
def pyStrip (cs : List Char) : List Char :=
  ((cs.dropWhile isPySpace).reverse.dropWhile isPySpace).reverse

/-- Python `int(s)`: leading/trailing whitespace is stripped, then an optional
single `+` or `-` sign precedes a non-empty decimal digit run in which single
underscores may separate digits (PEP 515).  `Option.none` stands for the
`ValueError` Python raises on anything else (non-ASCII digit and whitespace
characters, which CPython also accepts, are outside the model). -/
def pyParseInt (s : String) : Option Int :=
  match pyStrip s.data with
  | '+' :: cs => (pyParseNat? cs).map fun n => (n : Int)
  | '-' :: cs => (pyParseNat? cs).map fun n => -(n : Int)
  | cs => (pyParseNat? cs).map fun n => (n : Int)

example : pyParseInt "26" = Option.some 26 := by decide

example : pyParseInt " 26" = Option.some 26 := by decide

example : pyParseInt "+26" = Option.some 26 := by decide

example : pyParseInt "2_6" = Option.some 26 := by decide

example : pyParseInt "-5 " = Option.some (-5) := by decide

example : pyParseInt "2__6" = Option.none := by decide

example : pyParseInt "26_" = Option.none := by decide

example : pyParseInt "_26" = Option.none := by decide

example : pyParseInt "" = Option.none := by decide

example : pyParseInt "- 26" = Option.none := by decide

/-- Logging for IB Contracts (`IbContractLogger`). -/
def IbContractLogger : IbComplexTypeLogger Contract :=
  ⟨[
    ("ContractId", DhType.int64, fun contract => Cell.int contract.conId),
    ("SecId", DhType.string, fun contract => Cell.str contract.secId),
    ("SecIdType", DhType.string, fun contract => Cell.str contract.secIdType),
    ("SecType", DhType.string, fun contract => Cell.str contract.secType),
    ("Symbol", DhType.string, fun contract => Cell.str contract.symbol),
    ("LocalSymbol", DhType.string, fun contract => Cell.str contract.localSymbol),
    ("TradingClass", DhType.string, fun contract => Cell.str contract.tradingClass),
    ("Currency", DhType.string, fun contract => Cell.str contract.currency),
    ("Exchange", DhType.string, fun contract => Cell.str contract.exchange),
    ("PrimaryExchange", DhType.string, fun contract => Cell.str contract.primaryExchange),
    ("LastTradeDateOrContractMonth", DhType.string,
      fun contract => Cell.str contract.lastTradeDateOrContractMonth),
    ("Strike", DhType.float64, fun contract => Cell.float contract.strike),
    ("Right", DhType.string, fun contract => Cell.str contract.right),
    ("Multiplier", DhType.string, fun contract => Cell.str contract.multiplier),
    ("ComboLegsDescrip", DhType.string, fun contract => Cell.str contract.comboLegsDescrip),
    ("ComboLegs", DhType.stringset, fun contract => to_string_set contract.comboLegs),
    ("DeltaNeutralContract", DhType.string,
      fun contract => cellOfOptStr (to_string_val contract.deltaNeutralContract))
  ]⟩

/-- Logging for IB OrderStates (`IbOrderStateLogger`). -/
def IbOrderStateLogger : IbComplexTypeLogger OrderState :=
  ⟨[
    ("Status", DhType.string, fun os => Cell.str os.status),
    ("InitMarginBefore", DhType.string, fun os => Cell.str os.initMarginBefore),
    ("MaintMarginBefore", DhType.string, fun os => Cell.str os.maintMarginBefore),
    ("EquityWithLoanBefore", DhType.string, fun os => Cell.str os.equityWithLoanBefore),
    ("InitMarginChange", DhType.string, fun os => Cell.str os.initMarginChange),
    ("MaintMarginChange", DhType.string, fun os => Cell.str os.maintMarginChange),
    ("EquityWithLoanChange", DhType.string, fun os => Cell.str os.equityWithLoanChange),
    ("InitMarginAfter", DhType.string, fun os => Cell.str os.initMarginAfter),
    ("MaintMarginAfter", DhType.string, fun os => Cell.str os.maintMarginAfter),
    ("EquityWithLoanAfter", DhType.string, fun os => Cell.str os.equityWithLoanAfter),
    ("Commission", DhType.float64, fun os => Cell.float os.commission),
    ("MinCommission", DhType.float64, fun os => Cell.float os.minCommission),
    ("MaxCommission", DhType.float64, fun os => Cell.float os.maxCommission),
    ("CommissionCurrency", DhType.string, fun os => Cell.str os.commissionCurrency),
    ("WarningText", DhType.string, fun os => Cell.str os.warningText),
    ("CompletedTime", DhType.string, fun os => Cell.str os.completedTime),
    ("CompletedStatus", DhType.string, fun os => Cell.str os.completedStatus)
  ]⟩

/-- Logging for IB TickAttrib (`IbTickAttribLogger`). -/
def IbTickAttribLogger : IbComplexTypeLogger TickAttrib :=
  ⟨[
    ("CanAutoExecute", DhType.bool_, fun ta => Cell.bool ta.canAutoExecute),
    ("PastLimit", DhType.bool_, fun ta => Cell.bool ta.pastLimit),
    ("PreOpen", DhType.bool_, fun ta => Cell.bool ta.preOpen)
  ]⟩

/-- Logging for IB BarData (`IbBarDataLogger`). -/
def IbBarDataLogger : IbComplexTypeLogger BarData :=
  ⟨[
    ("Timestamp", DhType.datetime, fun bd =>
      match pyParseInt bd.date with
      | Option.some n => unix_sec_to_dh_datetime n
      | Option.none => Cell.none),
    ("Open", DhType.float64, fun bd => Cell.float bd.open_),
    ("High", DhType.float64, fun bd => Cell.float bd.high),
    ("Low", DhType.float64, fun bd => Cell.float bd.low),
    ("Close", DhType.float64, fun bd => Cell.float bd.close),
    ("Volume", DhType.int64, fun bd => Cell.int bd.volume),
    ("BarCount", DhType.int64, fun bd => Cell.int bd.barCount),
    ("Average", DhType.float64, fun bd => Cell.float bd.average)
  ]⟩

/-- Logging for HistoricalTickLast (`IbHistoricalTickLastLogger`). -/
def IbHistoricalTickLastLogger : IbComplexTypeLogger HistoricalTickLast :=
  ⟨[
    ("Timestamp", DhType.datetime, fun t => unix_sec_to_dh_datetime t.time),
    ("Price", DhType.float64, fun t => Cell.float t.price),
    ("Size", DhType.int64, fun t => Cell.int t.size),
    ("PastLimit", DhType.bool_, fun t => Cell.bool t.tickAttribLast.pastLimit),
    ("Unreported", DhType.bool_, fun t => Cell.bool t.tickAttribLast.unreported),
    ("Exchange", DhType.string, fun t => Cell.str t.exchange),
    ("SpecialConditions", DhType.string, fun t => Cell.str t.specialConditions)
  ]⟩

/-- Logging for HistoricalTickBidAsk (`IbHistoricalTickBidAskLogger`). -/
def IbHistoricalTickBidAskLogger : IbComplexTypeLogger HistoricalTickBidAsk :=
  ⟨[
    ("Timestamp", DhType.datetime, fun t => unix_sec_to_dh_datetime t.time),
    ("BidPrice", DhType.float64, fun t => Cell.float t.priceBid),
    ("AskPrice", DhType.float64, fun t => Cell.float t.priceAsk),
    ("BidSize", DhType.int64, fun t => Cell.int t.sizeBid),
    ("AskSize", DhType.int64, fun t => Cell.int t.sizeAsk),
    ("BidPastLow", DhType.bool_, fun t => Cell.bool t.tickAttribBidAsk.bidPastLow),
    ("AskPastHigh", DhType.bool_, fun t => Cell.bool t.tickAttribBidAsk.askPastHigh)
  ]⟩

/-- Logging for FamilyCode (`IbFamilyCodeLogger`). -/
def IbFamilyCodeLogger : IbComplexTypeLogger FamilyCode :=
  ⟨[
    ("AccountID", DhType.string, fun fc => Cell.str fc.accountID),
    ("FamilyCode", DhType.string, fun fc => Cell.str fc.familyCodeStr)
  ]⟩

/-- Logging for PriceIncrement (`IbPriceIncrementLogger`). -/
def IbPriceIncrementLogger : IbComplexTypeLogger PriceIncrement :=
  ⟨[
    ("LowEdge", DhType.float64, fun pi => Cell.float pi.lowEdge),
    ("Increment", DhType.float64, fun pi => Cell.float pi.increment)
  ]⟩

/-- One source-level entry of a Python `column_details` list literal: either a
well-formed (name, type, extractor) triple, or a token sequence that is not a
valid Python expression (recorded verbatim). -/
inductive PySrcEntry (α : Type) where
  | triple : String → DhType → (α → Cell) → PySrcEntry α
  | malformed : String → PySrcEntry α

/-- Elaborate a source-level `column_details` list into logger column details;
fails (as the Python parser does, with a `SyntaxError` for the whole module) if
any entry is not a well-formed triple. -/
def parseColumnDetails : List (PySrcEntry α) → Option (List (String × DhType × (α → Cell)))
  | [] => Option.some []
  | PySrcEntry.triple n t f :: rest =>
      (parseColumnDetails rest).map fun l => (n, t, f) :: l
  | PySrcEntry.malformed _ :: _ => Option.none

/-- Construct a logger from source-level column details, when they elaborate. -/
def mkLoggerFromSrc (entries : List (PySrcEntry α)) : Option (IbComplexTypeLogger α) :=
  (parseColumnDetails entries).map IbComplexTypeLogger.mk

/-- The `column_details` list literal of `IbContractDetailsLogger.__init__`
(`_ibtypelogger.py` lines 390-433), entry for entry.  Its first entry reads
`(** * contractstuff ** * cd.contract),` in the source, which is not a valid
Python expression; it is recorded as a malformed entry. -/
def ibContractDetailsColumnSrc : List (PySrcEntry ContractDetails) :=
  [
    PySrcEntry.malformed "(** * contractstuff ** * cd.contract)",
    PySrcEntry.triple "MarketName" DhType.string (fun cd => Cell.str cd.marketName),
    PySrcEntry.triple "MinTick" DhType.float64 (fun cd => Cell.float cd.minTick),
    PySrcEntry.triple "OrderTypes" DhType.string (fun cd => Cell.str cd.orderTypes),
    PySrcEntry.triple "ValidExchanges" DhType.string (fun cd => Cell.str cd.validExchanges),
    PySrcEntry.triple "PriceMagnifier" DhType.int64 (fun cd => Cell.int cd.priceMagnifier),
    PySrcEntry.triple "UnderConId" DhType.int64 (fun cd => Cell.int cd.underConId),
    PySrcEntry.triple "LongName" DhType.string (fun cd => Cell.str cd.longName),
    PySrcEntry.triple "ContractMonth" DhType.string (fun cd => Cell.str cd.contractMonth),
    PySrcEntry.triple "Industry" DhType.string (fun cd => Cell.str cd.industry),
    PySrcEntry.triple "Category" DhType.string (fun cd => Cell.str cd.category),
    PySrcEntry.triple "SubCategory" DhType.string (fun cd => Cell.str cd.subcategory),
    PySrcEntry.triple "TimeZoneId" DhType.string (fun cd => Cell.str cd.timeZoneId),
    PySrcEntry.triple "TradingHours" DhType.string (fun cd => Cell.str cd.tradingHours),
    PySrcEntry.triple "LiquidHours" DhType.string (fun cd => Cell.str cd.liquidHours),
    PySrcEntry.triple "EvRule" DhType.string (fun cd => Cell.str cd.evRule),
    PySrcEntry.triple "EvMultiplier" DhType.int64 (fun cd => Cell.int cd.evMultiplier),
    PySrcEntry.triple "MdSizeMultiplier" DhType.int64 (fun cd => Cell.int cd.mdSizeMultiplier),
    PySrcEntry.triple "AggGroup" DhType.int64 (fun cd => Cell.int cd.aggGroup),
    PySrcEntry.triple "UnderSymbol" DhType.string (fun cd => Cell.str cd.underSymbol),
    PySrcEntry.triple "UnderSecType" DhType.string (fun cd => Cell.str cd.underSecType),
    PySrcEntry.triple "MarketRuleIds" DhType.string (fun cd => Cell.str cd.marketRuleIds),
    PySrcEntry.triple "SecIdList" DhType.stringset (fun cd => to_string_set cd.secIdList),
    PySrcEntry.triple "RealExpirationDate" DhType.string (fun cd => Cell.str cd.realExpirationDate),
    PySrcEntry.triple "LastTradeTime" DhType.string (fun cd => Cell.str cd.lastTradeTime),
    PySrcEntry.triple "StockType" DhType.string (fun cd => Cell.str cd.stockType),
    PySrcEntry.triple "CUSIP" DhType.string (fun cd => Cell.str cd.cusip),
    PySrcEntry.triple "Ratings" DhType.string (fun cd => Cell.str cd.ratings),
    PySrcEntry.triple "DescAppend" DhType.string (fun cd => Cell.str cd.descAppend),
    PySrcEntry.triple "BondType" DhType.string (fun cd => Cell.str cd.bondType),
    PySrcEntry.triple "CouponType" DhType.string (fun cd => Cell.str cd.couponType),
    PySrcEntry.triple "Callable" DhType.bool_ (fun cd => Cell.bool cd.callable),
    PySrcEntry.triple "Putable" DhType.bool_ (fun cd => Cell.bool cd.putable),
    PySrcEntry.triple "Coupon" DhType.int64 (fun cd => Cell.int cd.coupon),
    PySrcEntry.triple "Convertible" DhType.bool_ (fun cd => Cell.bool cd.convertible),
    PySrcEntry.triple "Maturity" DhType.string (fun cd => Cell.str cd.maturity),
    PySrcEntry.triple "IssueDate" DhType.string (fun cd => Cell.str cd.issueDate),
    PySrcEntry.triple "NextOptionDate" DhType.string (fun cd => Cell.str cd.nextOptionDate),
    PySrcEntry.triple "NextOptionType" DhType.string (fun cd => Cell.str cd.nextOptionType),
    PySrcEntry.triple "NextOptionPartial" DhType.bool_ (fun cd => Cell.bool cd.nextOptionPartial),
    PySrcEntry.triple "Notes" DhType.string (fun cd => Cell.str cd.notes)
  ]

/-- The well-formed loggers of `_ibtypelogger.py`, seen as source entries, all
elaborate; shown here for the contract logger's entries. -/
def ibContractColumnSrc : List (PySrcEntry Contract) :=
  IbContractLogger.column_details.map fun cd => PySrcEntry.triple cd.1 cd.2.1 cd.2.2

/-! ## Client state, outbound messages, dispatch results (`tws_client.py`) -/

/-- Outbound IB API calls issued by the client (the external `EClient` request
catalogue, as invoked by the embedded code paths). -/
inductive OutMsg where
  | transportConnect : String → Int → Int → OutMsg
  | reqManagedAccts : OutMsg
  | reqAccountSummary : Int → String → String → OutMsg
  | reqPositions : OutMsg
  | reqNewsBulletins : Bool → OutMsg
  | reqExecutions : Int → OutMsg
  | reqCompletedOrders : Bool → OutMsg
  | reqNewsProviders : OutMsg
  | reqAllOpenOrders : OutMsg
  | reqFamilyCodes : OutMsg
  | reqContractDetails : String → OutMsg
  | reqMarketRule : Int → OutMsg
  | reqRealTimeBars : Int → Contract → Int → String → Bool → OutMsg
deriving DecidableEq, Repr

/-- The Python exceptions the embedded code paths can raise. -/
inductive DispatchError where
  | alreadyConnected
  | orderIdMismatch
  | keyError : Int → DispatchError
  | noneTypeError
  | valueError
deriving DecidableEq, Repr

/-- The output tables written by the embedded handlers (each a growing list of
rows, in arrival order; the client owns ~27 tables, those not written by an
embedded handler are omitted rather than abstracted). -/
structure Tables where
  requests : List Row
  contracts_details : List Row
  market_rules : List Row
  news_bulletins : List Row
  ticks_trade : List Row
  bars_realtime : List Row
  orders_open : List Row
deriving DecidableEq, Repr

/-- Modelled from the spec: the contract fingerprint is derived from the
contract's identifying fields (security type, symbol, exchange, currency,
expiry/strike/right) since the IB-assigned conId is not known before
resolution (`contract_registry.py` is not among the provided sources). -/
def contractFingerprint (c : Contract) : String :=
  c.secType ++ "|" ++ c.symbol ++ "|" ++ c.exchange ++ "|" ++ c.currency ++ "|" ++
    c.lastTradeDateOrContractMonth ++ "|" ++ toString c.strike ++ "|" ++ c.right

/-- Modelled from the spec: the Contract Registry caches resolved contract
metadata keyed by fingerprint and deduplicates in-flight lookups
(`contract_registry.py` is not among the provided sources). -/
structure ContractRegistry where
  requested : List String
  resolved : List (Int × String)
deriving DecidableEq, Repr

/-- Modelled from the spec: `request_contract_details_nonblocking` computes the
fingerprint; if no request is in flight or resolved for it, issues a
contract-details request and records it; otherwise does nothing. -/
def ContractRegistry.request_contract_details_nonblocking (reg : ContractRegistry)
    (c : Contract) : ContractRegistry × List OutMsg :=
  let fp := contractFingerprint c
  if fp ∈ reg.requested then (reg, [])
  else ({ reg with requested := fp :: reg.requested }, [OutMsg.reqContractDetails fp])

/-- Modelled from the spec: `add_contract_data` records a completed resolution
for the fingerprint implied by the given details. -/
def ContractRegistry.add_contract_data (reg : ContractRegistry) (reqId : Int)
    (cd : ContractDetails) : ContractRegistry :=
  { reg with resolved := (reqId, contractFingerprint cd.contract) :: reg.resolved }

/-- The per-connection state created by `_subscribe` and discarded by
`disconnect`: contract registry, order-id queue, registered-market-rule set and
realtime-bar-size map. -/
structure SessionData where
  contract_registry : ContractRegistry
  order_id_queue : List Int
  registered_market_rules : List String
  realtime_bar_sizes : List (Int × Int)
deriving DecidableEq, Repr

/-- The state of one `IbTwsClient`: transport connection flag (`isConnected`),
reader thread, process-wide unique-id counter, the optional per-connection
session data (`None` before `connect` and after `disconnect`), and the output
tables. -/
structure ClientState where
  connected : Bool
  hasThread : Bool
  uid : Int
  session : Option SessionData
  tables : Tables
deriving DecidableEq, Repr

/-- Result of running one handler: the raised exception if any, the client
state at the point control left the handler, and the outbound IB messages
issued. -/
structure DispatchResult where
  err : Option DispatchError
  state : ClientState
  out : List OutMsg
deriving DecidableEq, Repr

/-- Python dict assignment `m[k] = v`: one entry per key. -/
def pyDictInsert (m : List (Int × Int)) (k v : Int) : List (Int × Int) :=
  (k, v) :: m.filter fun p => p.1 ≠ k

/-- Append one row to the `requests` table. -/
def Tables.writeRequests (t : Tables) (r : Row) : Tables :=
  { t with requests := t.requests ++ [r] }

/-- Append one row to the `contracts_details` table. -/
def Tables.writeContractsDetails (t : Tables) (r : Row) : Tables :=
  { t with contracts_details := t.contracts_details ++ [r] }

/-- Append rows to the `market_rules` table. -/
def Tables.writeMarketRules (t : Tables) (rs : List Row) : Tables :=
  { t with market_rules := t.market_rules ++ rs }

/-- Append one row to the `news_bulletins` table. -/
def Tables.writeNewsBulletins (t : Tables) (r : Row) : Tables :=
  { t with news_bulletins := t.news_bulletins ++ [r] }

/-- Append rows to the `ticks_trade` table. -/
def Tables.writeTicksTrade (t : Tables) (rs : List Row) : Tables :=
  { t with ticks_trade := t.ticks_trade ++ rs }

/-- Append one row to the `bars_realtime` table. -/
def Tables.writeBarsRealtime (t : Tables) (r : Row) : Tables :=
  { t with bars_realtime := t.bars_realtime ++ [r] }

/-- Append one row to the `orders_open` table. -/
def Tables.writeOrdersOpen (t : Tables) (r : Row) : Tables :=
  { t with orders_open := t.orders_open ++ [r] }

/-! ## The loggers of the TWS client module

`deephaven_ib/_tws/ib_type_logger.py` (the module the TWS client imports its
`logger_*` instances from) is not among the provided sources; its loggers are
modelled from the specification, reusing the parallel dhib loggers where the
spec declares the same column mapping. -/

/-- Modelled from the spec: `logger_contract.vals`, absent-preserving - an
absent contract yields one absent cell per contract column (§4.7's
absent-preserving convention); a present contract flattens the contract
columns. -/
def logger_contract_vals : Option Contract → List Cell
  | Option.none => List.replicate IbContractLogger.column_details.length Cell.none
  | Option.some c => IbContractLogger.vals c

/-- Modelled from the spec: `logger_contract_details.vals` flattens the
underlying contract's columns followed by the detail columns (the columns the
`contractstuff` placeholder of the dhib draft stands for, then the detail
triples). -/
def logger_contract_details_vals (cd : ContractDetails) : List Cell :=
  IbContractLogger.vals cd.contract ++
    ibContractDetailsColumnSrc.filterMap fun e =>
      match e with
      | PySrcEntry.triple _ _ f => Option.some (f cd)
      | PySrcEntry.malformed _ => Option.none

/-- Modelled from the spec: `logger_order.vals` flattens the order's fields in
declared column order (only the representative fields carried by `Order` above;
no claim depends on the order columns beyond row arity being fixed). -/
def logger_order_vals (o : Order) : List Cell :=
  [Cell.int o.orderId, Cell.int o.clientId, Cell.int o.permId, Cell.str o.action,
    Cell.int o.totalQuantity, Cell.str o.orderType, Cell.float o.lmtPrice,
    Cell.float o.auxPrice]

/-- Modelled from the spec: `logger_order_state.vals`, the same column mapping
as the dhib OrderState logger. -/
def logger_order_state_vals (os : OrderState) : List Cell :=
  IbOrderStateLogger.vals os

/-- Modelled from the spec: `logger_hist_tick_last.vals`, the same column
mapping as the dhib HistoricalTickLast logger. -/
def logger_hist_tick_last_vals (t : HistoricalTickLast) : List Cell :=
  IbHistoricalTickLastLogger.vals t

/-- Modelled from the spec: `logger_price_increment.vals`, the same column
mapping as the dhib PriceIncrement logger. -/
def logger_price_increment_vals (pi : PriceIncrement) : List Cell :=
  IbPriceIncrementLogger.vals pi

/-- Modelled from the spec: `logger_real_time_bar_data.vals` is pure field
flattening of the real-time bar, timestamps parsed through the datetime
conversion - in particular the bar's end timestamp is the second column. -/
def logger_real_time_bar_data_vals (b : RealTimeBar) : List Cell :=
  [unix_sec_to_dh_datetime b.time, unix_sec_to_dh_datetime b.endTime,
    Cell.float b.open_, Cell.float b.high, Cell.float b.low, Cell.float b.close,
    Cell.int b.volume, Cell.float b.wap, Cell.int b.count]

/-! ## IB news-bulletin message-type constants (external `ibapi.news`) -/

/-- External ibapi constant `news.NEWS_MSG`. -/
def NEWS_MSG : Int := 1

/-- External ibapi constant `news.EXCHANGE_AVAIL_MSG`. -/
def EXCHANGE_AVAIL_MSG : Int := 2

/-- External ibapi constant `news.EXCHANGE_UNAVAIL_MSG`. -/
def EXCHANGE_UNAVAIL_MSG : Int := 3

/-- `_news_msgtype_map` of `tws_client.py`. -/
def news_msgtype_map : List (Int × String) :=
  [(NEWS_MSG, "NEWS"), (EXCHANGE_AVAIL_MSG, "EXCHANGE_AVAILABLE"),
    (EXCHANGE_UNAVAIL_MSG, "EXCHANGE_UNAVAILABLE")]

/-! ## The TWS client's handlers (`IbTwsClient` methods of `tws_client.py`) -/

namespace IbTwsClient

/-- `log_request`: append one row to the `requests` audit table. -/
def log_request (st : ClientState) (req_id : Int) (request_type : String)
    (contract : Option Contract) (note : Option String) : ClientState :=
  let row : Row := Cell.int req_id :: Cell.str request_type ::
    (logger_contract_vals contract ++ [cellOfOptStr note])
  { st with tables := st.tables.writeRequests row }

/-- The `account_summary_tags` list of `_subscribe`, verbatim (including the
misspelled first tag and the duplicated `TotalCashValue`). -/
def account_summary_tags : List String :=
  ["accountountType", "NetLiquidation", "TotalCashValue", "SettledCash",
    "TotalCashValue", "AccruedCash", "BuyingPower", "EquityWithLoanValue",
    "PreviousDayEquityWithLoanValue", "GrossPositionValue", "RegTEquity",
    "RegTMargin", "SMA", "InitMarginReq", "MaintMarginReq", "AvailableFunds",
    "ExcessLiquidity", "Cushion", "FullInitMarginReq", "FullMaintMarginReq",
    "FullAvailableFunds", "FullExcessLiquidity", "LookAheadNextChange",
    "LookAheadInitMarginReq", "LookAheadMaintMarginReq",
    "LookAheadAvailableFunds", "LookAheadExcessLiquidity", "HighestSeverity",
    "DayTradesRemaining", "Leverage", "$LEDGER"]

/-- `_subscribe`: (re)initialize the per-connection state and issue the
bootstrap subscription sequence.  `next_unique_id()` (modelled from the spec as
the strictly increasing process-wide counter `uid`) is consumed three times:
once for the AccountSummary request, once for the logged Executions request id,
and - the third time - for the id actually passed to `reqExecutions`. -/
def subscribe (st : ClientState) : DispatchResult :=
  let st0 := { st with session := Option.some ⟨⟨[], []⟩, [], [], []⟩ }
  let req_id1 := st0.uid
  let tags := String.intercalate "," account_summary_tags
  let note := "groupName=\x27All\x27 tags=" ++ tags
  let st1 := log_request { st0 with uid := st0.uid + 1 } req_id1 "AccountSummary"
    Option.none (Option.some note)
  let req_id2 := st1.uid
  let st2 := log_request { st1 with uid := st1.uid + 1 } req_id2 "Executions"
    Option.none Option.none
  let req_id3 := st2.uid
  let st3 := { st2 with uid := st2.uid + 1 }
  ⟨Option.none, st3,
    [OutMsg.reqManagedAccts,
      OutMsg.reqAccountSummary req_id1 "All" tags,
      OutMsg.reqPositions,
      OutMsg.reqNewsBulletins true,
      OutMsg.reqExecutions req_id3,
      OutMsg.reqCompletedOrders false,
      OutMsg.reqNewsProviders,
      OutMsg.reqAllOpenOrders,
      OutMsg.reqFamilyCodes]⟩

/-- `connect`: raises if already connected, before touching the transport;
otherwise opens the transport, starts the reader thread and issues the
bootstrap subscriptions (the fixed `time.sleep` pauses have no effect on the
embedded state). -/
def connect (st : ClientState) (host : String) (port client_id : Int) : DispatchResult :=
  if st.connected then ⟨Option.some DispatchError.alreadyConnected, st, []⟩
  else
    let st1 := { st with connected := true, hasThread := true }
    let r := subscribe st1
    ⟨r.err, r.state, OutMsg.transportConnect host port client_id :: r.out⟩

/-- `disconnect`: close the transport and discard the per-connection state. -/
def disconnect (st : ClientState) : DispatchResult :=
  ⟨Option.none,
    { st with connected := false, hasThread := false, session := Option.none }, []⟩

/-- The loop body of `request_market_rules`: for each comma-separated token not
in the registered set, issue `reqMarketRule(int(token))`; a malformed token
raises `ValueError` at its iteration (requests already issued stand). -/
def marketRuleRequests (registered : List String) :
    List String → Option DispatchError × List OutMsg
  | [] => (Option.none, [])
  | tok :: rest =>
    if tok ∈ registered then marketRuleRequests registered rest
    else
      match pyParseInt tok with
      | Option.none => (Option.some DispatchError.valueError, [])
      | Option.some v =>
        ((marketRuleRequests registered rest).1,
          OutMsg.reqMarketRule v :: (marketRuleRequests registered rest).2)

/-- `request_market_rules`: request price-increment rules for each rule id in
the ContractDetails that is not yet registered.  Note the function does not
itself mark anything registered. -/
def request_market_rules (st : ClientState) (contractDetails : ContractDetails) :
    DispatchResult :=
  match st.session with
  | Option.none => ⟨Option.some DispatchError.noneTypeError, st, []⟩
  | Option.some sd =>
    let (e, ms) := marketRuleRequests sd.registered_market_rules
      (pySplit contractDetails.marketRuleIds ',')
    ⟨e, st, ms⟩

/-- `contractDetails` callback: one row to `contracts_details`, register the
resolved contract, then request market rules. -/
def contractDetails (st : ClientState) (reqId : Int) (cd : ContractDetails) :
    DispatchResult :=
  let st1 := { st with tables :=
    st.tables.writeContractsDetails (Cell.int reqId :: logger_contract_details_vals cd) }
  match st1.session with
  | Option.none => ⟨Option.some DispatchError.noneTypeError, st1, []⟩
  | Option.some sd =>
    let sd1 := { sd with contract_registry := sd.contract_registry.add_contract_data reqId cd }
    request_market_rules { st1 with session := Option.some sd1 } cd

/-- `marketRule` callback: one row to `market_rules` per price increment, then
mark the rule id registered. -/
def marketRule (st : ClientState) (marketRuleId : Int)
    (priceIncrements : List PriceIncrement) : DispatchResult :=
  let rows := priceIncrements.map fun pi =>
    Cell.str (toString marketRuleId) :: logger_price_increment_vals pi
  let st1 := { st with tables := st.tables.writeMarketRules rows }
  match st1.session with
  | Option.none => ⟨Option.some DispatchError.noneTypeError, st1, []⟩
  | Option.some sd =>
    let rules := sd.registered_market_rules.insert (toString marketRuleId)
    let sd1 := { sd with registered_market_rules := rules }
    ⟨Option.none, { st1 with session := Option.some sd1 }, []⟩

/-- `updateNewsBulletin` callback: one row to `news_bulletins` with the message
type mapped through `_news_msgtype_map`. -/
def updateNewsBulletin (st : ClientState) (msgId msgType : Int)
    (newsMessage originExch : String) : DispatchResult :=
  let row : Row := [Cell.int msgId,
    cellOfOptStr (map_values (Option.some msgType) news_msgtype_map),
    Cell.str newsMessage, Cell.str originExch]
  ⟨Option.none, { st with tables := st.tables.writeNewsBulletins row }, []⟩

/-- `tickByTickAllLast` callback: build a `HistoricalTickLast` from the scalar
arguments and log it through the same logger as the historical path (the
`tickType` argument is not used in the row). -/
def tickByTickAllLast (st : ClientState) (reqId tickType timestamp : Int)
    (price : PyFloat) (size : Int) (tickAttribLast : TickAttribLast)
    (exchange specialConditions : String) : DispatchResult :=
  let t : HistoricalTickLast :=
    { time := timestamp, tickAttribLast := tickAttribLast, price := price,
      size := size, exchange := exchange, specialConditions := specialConditions }
  let rows : List Row := [Cell.int reqId :: logger_hist_tick_last_vals t]
  ⟨Option.none, { st with tables := st.tables.writeTicksTrade rows }, []⟩

/-- `historicalTicksLast` callback: one row to `ticks_trade` per tick. -/
def historicalTicksLast (st : ClientState) (reqId : Int)
    (ticks : List HistoricalTickLast) (done : Bool) : DispatchResult :=
  let rows : List Row := ticks.map fun t => Cell.int reqId :: logger_hist_tick_last_vals t
  ⟨Option.none, { st with tables := st.tables.writeTicksTrade rows }, []⟩

/-- `reqRealTimeBars` override: record the bar size for the request id, then
forward to the transport (`realTimeBarsOptions` is forwarded unread and
omitted). -/
def reqRealTimeBars (st : ClientState) (reqId : Int) (contract : Contract)
    (barSize : Int) (whatToShow : String) (useRTH : Bool) : DispatchResult :=
  match st.session with
  | Option.none => ⟨Option.some DispatchError.noneTypeError, st, []⟩
  | Option.some sd =>
    let sizes := pyDictInsert sd.realtime_bar_sizes reqId barSize
    let sd1 := { sd with realtime_bar_sizes := sizes }
    ⟨Option.none, { st with session := Option.some sd1 },
      [OutMsg.reqRealTimeBars reqId contract barSize whatToShow useRTH]⟩

/-- `realtimeBar` callback: look the bar size up in the per-request map (a
missing key raises `KeyError` before any row is written), then log one row
whose bar carries `endTime = timestamp + bar_size`. -/
def realtimeBar (st : ClientState) (reqId timestamp : Int)
    (open_ high low close : PyFloat) (volume : Int) (wap : PyFloat)
    (count : Int) : DispatchResult :=
  match st.session with
  | Option.none => ⟨Option.some DispatchError.noneTypeError, st, []⟩
  | Option.some sd =>
    match sd.realtime_bar_sizes.lookup reqId with
    | Option.none => ⟨Option.some (DispatchError.keyError reqId), st, []⟩
    | Option.some bar_size =>
      let bar : RealTimeBar :=
        { time := timestamp, endTime := timestamp + bar_size, open_ := open_,
          high := high, low := low, close := close, volume := volume,
          wap := wap, count := count }
      let row : Row := Cell.int reqId :: logger_real_time_bar_data_vals bar
      ⟨Option.none, { st with tables := st.tables.writeBarsRealtime row }, []⟩

/-- `openOrder` callback: raise if the reported order id differs from the
order's own `orderId` field; otherwise one row to `orders_open` followed by a
non-blocking contract-registry lookup. -/
def openOrder (st : ClientState) (orderId : Int) (contract : Contract)
    (order : Order) (orderState : OrderState) : DispatchResult :=
  if orderId ≠ order.orderId then ⟨Option.some DispatchError.orderIdMismatch, st, []⟩
  else
    let row : Row := logger_contract_vals (Option.some contract) ++
      logger_order_vals order ++ logger_order_state_vals orderState
    let st1 := { st with tables := st.tables.writeOrdersOpen row }
    match st1.session with
    | Option.none => ⟨Option.some DispatchError.noneTypeError, st1, []⟩
    | Option.some sd =>
      let (reg, out) := sd.contract_registry.request_contract_details_nonblocking contract
      let sd1 := { sd with contract_registry := reg }
      ⟨Option.none, { st1 with session := Option.some sd1 }, out⟩

/-- `contractDetailsEnd` callback: forwards to the `EWrapper` base (logging
only) - no row, no state change, no outbound message. -/
def contractDetailsEnd (st : ClientState) (reqId : Int) : DispatchResult :=
  ⟨Option.none, st, []⟩

/-- `tickSnapshotEnd` callback: forwards to the `EWrapper` base only. -/
def tickSnapshotEnd (st : ClientState) (reqId : Int) : DispatchResult :=
  ⟨Option.none, st, []⟩

/-- `historicalDataEnd` callback: forwards to the `EWrapper` base only. -/
def historicalDataEnd (st : ClientState) (reqId : Int) (start_ end_ : String) :
    DispatchResult :=
  ⟨Option.none, st, []⟩

/-- `openOrderEnd` callback: forwards to the `EWrapper` base only. -/
def openOrderEnd (st : ClientState) : DispatchResult :=
  ⟨Option.none, st, []⟩

/-- `completedOrdersEnd` callback: forwards to the `EWrapper` base only. -/
def completedOrdersEnd (st : ClientState) : DispatchResult :=
  ⟨Option.none, st, []⟩

/-- `execDetailsEnd` callback: forwards to the `EWrapper` base only. -/
def execDetailsEnd (st : ClientState) (reqId : Int) : DispatchResult :=
  ⟨Option.none, st, []⟩

/-- `historicalNewsEnd` callback, as written at `tws_client.py` line 544 (and
identically at `_listener.py` line 280): the body is
`self.historicalNewsEnd(requestId, hasMore)` - an unconditional call to itself
with unchanged arguments.  The recursion is made explicit with a stack-depth
fuel parameter; `Option.none` is the Python `RecursionError` raised when the
interpreter's recursion limit is exhausted. -/
def historicalNewsEnd : Nat → ClientState → Int → Bool → Option DispatchResult
  | 0, _, _, _ => Option.none
  | Nat.succ fuel, st, requestId, hasMore => historicalNewsEnd fuel st requestId hasMore

end IbTwsClient

/-! ## Event sequences (for the temporal market-rule claim) -/

/-- The inbound events the temporal market-rule claim ranges over: sequences of
`contractDetails` and `marketRule` callbacks, dispatched one at a time in
arrival order by the single reader thread. -/
inductive Event where
  | contractDetails : Int → ContractDetails → Event
  | marketRule : Int → List PriceIncrement → Event
deriving DecidableEq, Repr

/-- Dispatch one event to the matching client callback. -/
def stepEvent (st : ClientState) : Event → DispatchResult
  | Event.contractDetails reqId cd => IbTwsClient.contractDetails st reqId cd
  | Event.marketRule id pis => IbTwsClient.marketRule st id pis

/-- Dispatch a sequence of events in order, collecting the outbound messages;
an exception kills the dispatch thread (no further event is processed). -/
def runEvents (st : ClientState) : List Event → ClientState × List OutMsg × Option DispatchError
  | [] => (st, [], Option.none)
  | e :: es =>
    let r := stepEvent st e
    match r.err with
    | Option.some err => (r.state, r.out, Option.some err)
    | Option.none =>
      let rest := runEvents r.state es
      (rest.1, r.out ++ rest.2.1, rest.2.2)

/-- Canonical-token check for one event: every comma-separated market-rule
token of a `contractDetails` event that parses to the integer `M` is exactly
the decimal rendering of `M` (rules out aliases such as `026` for `26`, which
Python's `int` also accepts). -/
def canonicalTokensFor (M : Int) : Event → Bool
  | Event.contractDetails _ cd =>
      (pySplit cd.marketRuleIds ',').all fun t =>
        match pyParseInt t with
        | Option.some v => if v = M then t == toString M else true
        | Option.none => true
  | Event.marketRule _ _ => true

/-! ## Concrete fixtures used by witnesses and counterexamples -/

/-- A concrete contract fixture. -/
def testContract : Contract :=
  { conId := 0, secId := "", secIdType := "", secType := "STK", symbol := "AAPL",
    localSymbol := "", tradingClass := "", currency := "USD", exchange := "SMART",
    primaryExchange := "", lastTradeDateOrContractMonth := "", strike := 0,
    right := "", multiplier := "", comboLegsDescrip := "", comboLegs := [],
    deltaNeutralContract := Option.none }

/-- A concrete order fixture whose own `orderId` field is `5`. -/
def testOrder : Order :=
  { orderId := 5, clientId := 1, permId := 77, action := "BUY",
    totalQuantity := 100, orderType := "LMT", lmtPrice := 10, auxPrice := 0 }

/-- A concrete order-state fixture. -/
def testOrderState : OrderState :=
  { status := "Submitted", initMarginBefore := "", maintMarginBefore := "",
    equityWithLoanBefore := "", initMarginChange := "", maintMarginChange := "",
    equityWithLoanChange := "", initMarginAfter := "", maintMarginAfter := "",
    equityWithLoanAfter := "", commission := 0, minCommission := 0,
    maxCommission := 0, commissionCurrency := "", warningText := "",
    completedTime := "", completedStatus := "" }

/-- A concrete contract-details fixture carrying the given market-rule ids. -/
def testContractDetails (ruleIds : String) : ContractDetails :=
  { contract := testContract, marketName := "", minTick := 0, orderTypes := "",
    validExchanges := "", priceMagnifier := 0, underConId := 0, longName := "",
    contractMonth := "", industry := "", category := "", subcategory := "",
    timeZoneId := "", tradingHours := "", liquidHours := "", evRule := "",
    evMultiplier := 0, mdSizeMultiplier := 0, aggGroup := 0, underSymbol := "",
    underSecType := "", marketRuleIds := ruleIds, secIdList := [],
    realExpirationDate := "", lastTradeTime := "", stockType := "", cusip := "",
    ratings := "", descAppend := "", bondType := "", couponType := "",
    callable := false, putable := false, coupon := 0, convertible := false,
    maturity := "", issueDate := "", nextOptionDate := "", nextOptionType := "",
    nextOptionPartial := false, notes := "" }

/-- All output tables empty. -/
def emptyTables : Tables := ⟨[], [], [], [], [], [], []⟩

/-- The per-connection state as `_subscribe` freshly creates it. -/
def freshSession : SessionData := ⟨⟨[], []⟩, [], [], []⟩

/-- A connected client with fresh session state and empty tables. -/
def connectedState : ClientState :=
  { connected := true, hasThread := true, uid := 100,
    session := Option.some freshSession, tables := emptyTables }

/-- A connected client whose registered-market-rule set already holds `26`. -/
def registeredState : ClientState :=
  { connected := true, hasThread := true, uid := 100,
    session := Option.some { freshSession with registered_market_rules := ["26"] },
    tables := emptyTables }

/-! ## Shared lemmas -/

/-- Any constructed complex-type logger satisfies the alignment invariant:
`names`, `types` and `vals obj` have identical length for every object. -/
theorem IbComplexTypeLogger.lengths_aligned (L : IbComplexTypeLogger α) (obj : α) :
    L.names.length = L.types.length ∧ L.names.length = (L.vals obj).length := by
  simp [IbComplexTypeLogger.names, IbComplexTypeLogger.types, IbComplexTypeLogger.vals]

/-! ## Claims -/

/-- C1: the end-of-list markers are claimed to terminate with no row and no
side effect.  Six of the seven do; `historicalNewsEnd`, however, calls itself
unconditionally with unchanged arguments, so it never completes normally for
any stack budget (Python dies with `RecursionError`): the claim fails on this
marker. -/
theorem claim_C1_end_markers :
    (∀ (fuel : Nat) (st : ClientState) (requestId : Int) (hasMore : Bool),
        IbTwsClient.historicalNewsEnd fuel st requestId hasMore = Option.none)
    ∧ (∀ (st : ClientState) (reqId : Int),
        IbTwsClient.contractDetailsEnd st reqId = ⟨Option.none, st, []⟩)
    ∧ (∀ (st : ClientState) (reqId : Int),
        IbTwsClient.tickSnapshotEnd st reqId = ⟨Option.none, st, []⟩)
    ∧ (∀ (st : ClientState) (reqId : Int) (start_ end_ : String),
        IbTwsClient.historicalDataEnd st reqId start_ end_ = ⟨Option.none, st, []⟩)
    ∧ (∀ st : ClientState, IbTwsClient.openOrderEnd st = ⟨Option.none, st, []⟩)
    ∧ (∀ st : ClientState, IbTwsClient.completedOrdersEnd st = ⟨Option.none, st, []⟩)
    ∧ (∀ (st : ClientState) (reqId : Int),
        IbTwsClient.execDetailsEnd st reqId = ⟨Option.none, st, []⟩) := by
  refine ⟨?_, fun st reqId => rfl, fun st reqId => rfl,
    fun st reqId start_ end_ => rfl, fun st => rfl, fun st => rfl, fun st reqId => rfl⟩
  intro fuel
  induction fuel with
  | zero => intro st r hm; rfl
  | succ n ih => intro st r hm; exact ih st r hm

/-- C2: every listed complex-type logger is claimed constructible with aligned
`names`/`types`/`vals`.  The `IbContractDetailsLogger` source contains the
malformed first entry `(** * contractstuff ** * cd.contract)`, so its column
details do not elaborate and the logger cannot be constructed (the Python
module fails to parse). -/
theorem claim_C2_contract_details_logger_unconstructible :
    mkLoggerFromSrc ibContractDetailsColumnSrc = Option.none := rfl

/-- C6: `connect` on an already-connected client raises `AlreadyConnected`
before touching the transport and leaves the entire client state - thread,
contract registry, order-id queue, registered-market-rule set, bar-size map
and tables - unchanged. -/
theorem claim_C6_connect_already_connected (st : ClientState)
    (h : st.connected = true) (host : String) (port client_id : Int) :
    IbTwsClient.connect st host port client_id
      = ⟨Option.some DispatchError.alreadyConnected, st, []⟩ := by
  simp [IbTwsClient.connect, h]

/-- Witness for C6 at a concrete connected client. -/
theorem claim_C6_witness :
    IbTwsClient.connect connectedState "localhost" 7497 0
      = ⟨Option.some DispatchError.alreadyConnected, connectedState, []⟩ :=
  claim_C6_connect_already_connected connectedState rfl "localhost" 7497 0

/-- C10: a `realtimeBar` event whose request id has no entry in the
realtime-bar-size map raises `KeyError` and leaves the state - in particular
`bars_realtime` - unchanged, issuing nothing outbound. -/
theorem claim_C10_realtime_bar_missing_entry (st : ClientState) (sd : SessionData)
    (hsd : st.session = Option.some sd) (reqId : Int)
    (hmiss : sd.realtime_bar_sizes.lookup reqId = Option.none)
    (T : Int) (o hi lo c : PyFloat) (v : Int) (w : PyFloat) (cnt : Int) :
    IbTwsClient.realtimeBar st reqId T o hi lo c v w cnt
      = ⟨Option.some (DispatchError.keyError reqId), st, []⟩ := by
  simp [IbTwsClient.realtimeBar, hsd, hmiss]

/-- Witness for C10: a fresh session has an empty bar-size map, so a
`realtimeBar` for request id 9 raises `KeyError(9)` and appends nothing. -/
theorem claim_C10_witness :
    IbTwsClient.realtimeBar connectedState 9 1000 1 2 3 4 10 6 7
      = ⟨Option.some (DispatchError.keyError 9), connectedState, []⟩ :=
  claim_C10_realtime_bar_missing_entry connectedState freshSession rfl 9 rfl
    1000 1 2 3 4 10 6 7

/-- C4: after `reqRealTimeBars` records bar size `barSize` for `reqId`, a
`realtimeBar` event for `reqId` with reported start timestamp `T` appends to
`bars_realtime` exactly one row whose end timestamp is `T + barSize`. -/
theorem claim_C4_realtime_bar_end_timestamp (st0 : ClientState) (sd0 : SessionData)
    (hsd : st0.session = Option.some sd0) (reqId : Int) (contract : Contract)
    (barSize : Int) (whatToShow : String) (useRTH : Bool)
    (T : Int) (o hi lo c : PyFloat) (v : Int) (w : PyFloat) (cnt : Int) :
    (IbTwsClient.realtimeBar
        (IbTwsClient.reqRealTimeBars st0 reqId contract barSize whatToShow useRTH).state
        reqId T o hi lo c v w cnt).state.tables.bars_realtime
      = st0.tables.bars_realtime ++
          [[Cell.int reqId, Cell.dt T, Cell.dt (T + barSize), Cell.float o,
            Cell.float hi, Cell.float lo, Cell.float c, Cell.int v, Cell.float w,
            Cell.int cnt]] := by
  simp [IbTwsClient.reqRealTimeBars, IbTwsClient.realtimeBar, hsd, pyDictInsert,
    Tables.writeBarsRealtime, logger_real_time_bar_data_vals, unix_sec_to_dh_datetime,
    List.lookup]

/-- Witness for C4: open request 9 with bar size 5, then a bar with start
timestamp 1000 is logged with end timestamp 1005. -/
theorem claim_C4_witness :
    (IbTwsClient.realtimeBar
        (IbTwsClient.reqRealTimeBars connectedState 9 testContract 5 "TRADES" true).state
        9 1000 1 2 3 4 10 6 7).state.tables.bars_realtime
      = [[Cell.int 9, Cell.dt 1000, Cell.dt 1005, Cell.float 1, Cell.float 2,
          Cell.float 3, Cell.float 4, Cell.int 10, Cell.float 6, Cell.int 7]] := by
  have h := claim_C4_realtime_bar_end_timestamp connectedState freshSession rfl 9
    testContract 5 "TRADES" true 1000 1 2 3 4 10 6 7
  simpa [connectedState, emptyTables] using h

/-- C3: an `openOrder` event with mismatched order id raises immediately,
appends no row to `orders_open` and issues no contract-registry lookup (state
and outbound trace are untouched); with matching ids exactly one row is
appended to `orders_open`. -/
theorem claim_C3_openOrder_id_check (st : ClientState) (sd : SessionData)
    (hsd : st.session = Option.some sd) (orderId : Int) (contract : Contract)
    (order : Order) (orderState : OrderState) :
    (orderId ≠ order.orderId →
        IbTwsClient.openOrder st orderId contract order orderState
          = ⟨Option.some DispatchError.orderIdMismatch, st, []⟩)
    ∧ (orderId = order.orderId →
        (IbTwsClient.openOrder st orderId contract order orderState).err = Option.none
        ∧ (IbTwsClient.openOrder st orderId contract order orderState).state.tables.orders_open
            = st.tables.orders_open ++
                [logger_contract_vals (Option.some contract) ++ logger_order_vals order ++
                  logger_order_state_vals orderState]) := by
  constructor
  · intro hne
    simp [IbTwsClient.openOrder, hne]
  · intro heq
    simp [IbTwsClient.openOrder, heq, hsd, Tables.writeOrdersOpen]

/-- Witness for C3: with the fixture order (own id 5), reported id 7 raises and
changes nothing, while reported id 5 appends exactly one row. -/
theorem claim_C3_witness :
    (IbTwsClient.openOrder connectedState 7 testContract testOrder testOrderState
        = ⟨Option.some DispatchError.orderIdMismatch, connectedState, []⟩)
    ∧ ((IbTwsClient.openOrder connectedState 5 testContract testOrder testOrderState).err
          = Option.none
        ∧ (IbTwsClient.openOrder connectedState 5 testContract testOrder
            testOrderState).state.tables.orders_open
            = [logger_contract_vals (Option.some testContract) ++ logger_order_vals testOrder ++
                logger_order_state_vals testOrderState]) := by
  constructor
  · exact (claim_C3_openOrder_id_check connectedState freshSession rfl 7 testContract
      testOrder testOrderState).1 (by decide)
  · have h := (claim_C3_openOrder_id_check connectedState freshSession rfl 5 testContract
      testOrder testOrderState).2 rfl
    simpa [connectedState, emptyTables] using h

/-- C7: `updateNewsBulletin` appends exactly one row to `news_bulletins` whose
MsgType cell is NEWS / EXCHANGE_AVAILABLE / EXCHANGE_UNAVAILABLE for the three
ibapi constants and the literal `UNKNOWN(N)` for any other value `N`. -/
theorem claim_C7_news_bulletin_msgtype (st : ClientState) (msgId msgType : Int)
    (newsMessage originExch : String) :
    (IbTwsClient.updateNewsBulletin st msgId msgType newsMessage originExch).err
        = Option.none
    ∧ (IbTwsClient.updateNewsBulletin st msgId msgType newsMessage
        originExch).state.tables.news_bulletins
      = st.tables.news_bulletins ++
          [[Cell.int msgId,
            Cell.str (if msgType = NEWS_MSG then "NEWS"
              else if msgType = EXCHANGE_AVAIL_MSG then "EXCHANGE_AVAILABLE"
              else if msgType = EXCHANGE_UNAVAIL_MSG then "EXCHANGE_UNAVAILABLE"
              else "UNKNOWN(" ++ toString msgType ++ ")"),
            Cell.str newsMessage, Cell.str originExch]] := by
  refine ⟨rfl, ?_⟩
  simp only [IbTwsClient.updateNewsBulletin, Tables.writeNewsBulletins, map_values,
    news_msgtype_map, NEWS_MSG, EXCHANGE_AVAIL_MSG, EXCHANGE_UNAVAIL_MSG,
    Option.map_some, List.lookup, cellOfOptStr]
  rcases eq_or_ne msgType 1 with h1 | h1
  · subst h1; rfl
  · rcases eq_or_ne msgType 2 with h2 | h2
    · subst h2; rfl
    · rcases eq_or_ne msgType 3 with h3 | h3
      · subst h3; rfl
      · have e1 : (msgType == 1) = false := beq_eq_false_iff_ne.mpr h1
        have e2 : (msgType == 2) = false := beq_eq_false_iff_ne.mpr h2
        have e3 : (msgType == 3) = false := beq_eq_false_iff_ne.mpr h3
        simp [e1, e2, e3, h1, h2, h3, Option.getD]

/-- C9: a `tickByTickAllLast` event and a `historicalTicksLast` record with
identical field values and the same request id append the same row to
`ticks_trade` - both paths normalize into the same last-trade row shape. -/
theorem claim_C9_trade_tick_paths_agree (st : ClientState)
    (reqId tickType timestamp : Int) (price : PyFloat) (size : Int)
    (attribs : TickAttribLast) (exchange specialConditions : String) (done : Bool) :
    (IbTwsClient.tickByTickAllLast st reqId tickType timestamp price size attribs
        exchange specialConditions).state.tables.ticks_trade
      = st.tables.ticks_trade ++
          [Cell.int reqId :: logger_hist_tick_last_vals
            ⟨timestamp, attribs, price, size, exchange, specialConditions⟩]
    ∧ (IbTwsClient.historicalTicksLast st reqId
        [⟨timestamp, attribs, price, size, exchange, specialConditions⟩]
        done).state.tables.ticks_trade
      = st.tables.ticks_trade ++
          [Cell.int reqId :: logger_hist_tick_last_vals
            ⟨timestamp, attribs, price, size, exchange, specialConditions⟩] := by
  constructor
  · simp [IbTwsClient.tickByTickAllLast, Tables.writeTicksTrade]
  · simp [IbTwsClient.historicalTicksLast, Tables.writeTicksTrade]

/-- Recognizer for `reqExecutions` messages in an outbound trace. -/
def isReqExecutions : OutMsg → Bool
  | OutMsg.reqExecutions _ => true
  | _ => false

/-- The note string `_subscribe` logs with the AccountSummary request. -/
def subscribeNote : String :=
  "groupName=\x27All\x27 tags=" ++ String.intercalate "," IbTwsClient.account_summary_tags

/-- C8: the bootstrap sequence logs an `Executions` row carrying the fresh id
`uid + 1`, but the only `reqExecutions` actually issued carries the different
fresh id `uid + 2` - the logged request id is never the id sent. -/
theorem claim_C8_executions_request_id_mismatch (st : ClientState) :
    ((IbTwsClient.subscribe st).state.tables.requests
        = st.tables.requests ++
            [Cell.int st.uid :: Cell.str "AccountSummary" ::
                (logger_contract_vals Option.none ++ [Cell.str subscribeNote]),
              Cell.int (st.uid + 1) :: Cell.str "Executions" ::
                (logger_contract_vals Option.none ++ [Cell.none])])
    ∧ ((IbTwsClient.subscribe st).out.filter isReqExecutions
        = [OutMsg.reqExecutions (st.uid + 2)])
    ∧ st.uid + 1 ≠ st.uid + 2 := by
  refine ⟨?_, ?_, by omega⟩
  · simp [IbTwsClient.subscribe, IbTwsClient.log_request, Tables.writeRequests,
      subscribeNote, cellOfOptStr]
  · simp [IbTwsClient.subscribe, IbTwsClient.log_request, isReqExecutions, List.filter]
    omega

/-- C5 counterexample: from a fresh session, two `contractDetails` events for
contracts sharing market rule 26 arrive before any `marketRule` response; the
client issues `reqMarketRule(26)` twice in the same connected session, because
`request_market_rules` never marks an id as registered - only the `marketRule`
callback does. -/
theorem claim_C5_counterexample :
    ((runEvents connectedState
        [Event.contractDetails 1 (testContractDetails "26"),
          Event.contractDetails 2 (testContractDetails "26")]).2.1.count
      (OutMsg.reqMarketRule 26)) = 2 := by decide

/-- If the decimal rendering of `M` is registered, the request loop of
`request_market_rules` issues no request for `M`, provided every token parsing
to `M` is the decimal rendering of `M`. -/
theorem marketRuleRequests_skips_registered (registered : List String) (M : Int)
    (hreg : toString M ∈ registered) (toks : List String)
    (hc : ∀ t ∈ toks, pyParseInt t = Option.some M → t = toString M) :
    OutMsg.reqMarketRule M ∉ (IbTwsClient.marketRuleRequests registered toks).2 := by
  induction toks with
  | nil => simp [IbTwsClient.marketRuleRequests]
  | cons tok rest ih =>
    have ih' := ih fun t ht hp => hc t (List.mem_cons_of_mem _ ht) hp
    by_cases hmem : tok ∈ registered
    · simpa [IbTwsClient.marketRuleRequests, hmem] using ih'
    · rcases hp : pyParseInt tok with _ | v
      · simp [IbTwsClient.marketRuleRequests, hmem, hp]
      · have hv : M ≠ v := by
          intro hEq
          exact hmem (hc tok (List.mem_cons_self tok rest) (hEq ▸ hp) ▸ hreg)
        simp [IbTwsClient.marketRuleRequests, hmem, hp, ih', hv]

/-- The effect of one `contractDetails` dispatch on the session: the registry
is updated but the registered-market-rule set is unchanged, and the outbound
messages are exactly those of the `request_market_rules` loop. -/
theorem contractDetails_step (st : ClientState) (sd : SessionData)
    (hsd : st.session = Option.some sd) (reqId : Int) (cd : ContractDetails) :
    ∃ sd', (IbTwsClient.contractDetails st reqId cd).state.session = Option.some sd'
      ∧ sd'.registered_market_rules = sd.registered_market_rules
      ∧ (IbTwsClient.contractDetails st reqId cd).out
          = (IbTwsClient.marketRuleRequests sd.registered_market_rules
              (pySplit cd.marketRuleIds ',')).2 := by
  refine ⟨{ sd with contract_registry := sd.contract_registry.add_contract_data reqId cd },
    ?_, rfl, ?_⟩ <;>
    simp [IbTwsClient.contractDetails, IbTwsClient.request_market_rules, hsd]

/-- The effect of one `marketRule` dispatch on the session: nothing outbound,
no exception, and the registered set grows by the rule id's decimal token. -/
theorem marketRule_step (st : ClientState) (sd : SessionData)
    (hsd : st.session = Option.some sd) (id : Int) (pis : List PriceIncrement) :
    (IbTwsClient.marketRule st id pis).out = []
    ∧ (IbTwsClient.marketRule st id pis).err = Option.none
    ∧ ∃ sd', (IbTwsClient.marketRule st id pis).state.session = Option.some sd'
        ∧ sd'.registered_market_rules
            = sd.registered_market_rules.insert (toString id) := by
  refine ⟨?_, ?_, ⟨{ sd with registered_market_rules :=
    sd.registered_market_rules.insert (toString id) }, ?_, rfl⟩⟩ <;>
    simp [IbTwsClient.marketRule, hsd]

/-- C5, amended: within one connected session whose registered set already
holds the decimal token of rule id `M` (i.e. `M`'s price increments have been
logged by a `marketRule` event), no later sequence of `contractDetails` and
`marketRule` events issues another `reqMarketRule` for `M`, provided rule
tokens are canonical decimal renderings.  Before the `marketRule` response
arrives the id is not registered, so duplicates are possible (see the
counterexample). -/
theorem claim_C5_amended (M : Int) (evs : List Event) :
    ∀ (st : ClientState) (sd : SessionData),
      st.session = Option.some sd →
      toString M ∈ sd.registered_market_rules →
      (∀ e ∈ evs, canonicalTokensFor M e = true) →
      OutMsg.reqMarketRule M ∉ (runEvents st evs).2.1 := by
  induction evs with
  | nil => intro st sd hsd hreg hc; simp [runEvents]
  | cons e rest ih =>
    intro st sd hsd hreg hc
    have hce : canonicalTokensFor M e = true := hc e (List.mem_cons_self e rest)
    have hcr : ∀ x ∈ rest, canonicalTokensFor M x = true :=
      fun x hx => hc x (List.mem_cons_of_mem _ hx)
    cases e with
    | contractDetails reqId cd =>
      have hcanon : ∀ t ∈ pySplit cd.marketRuleIds ',',
          pyParseInt t = Option.some M → t = toString M := by
        have hall := List.all_eq_true.mp (by simpa [canonicalTokensFor] using hce)
        intro t ht hp
        have h2 := hall t ht
        rw [hp] at h2
        simpa using h2
      obtain ⟨sd', hsd', hrules', hout⟩ := contractDetails_step st sd hsd reqId cd
      have hnot : OutMsg.reqMarketRule M ∉ (IbTwsClient.contractDetails st reqId cd).out := by
        rw [hout]
        exact marketRuleRequests_skips_registered sd.registered_market_rules M hreg _ hcanon
      have hreg' : toString M ∈ sd'.registered_market_rules := hrules' ▸ hreg
      simp only [runEvents, stepEvent]
      cases herr : (IbTwsClient.contractDetails st reqId cd).err with
      | some err => simpa [herr] using hnot
      | none =>
        simp only [herr, List.mem_append]
        push_neg
        exact ⟨hnot, ih _ sd' hsd' hreg' hcr⟩
    | marketRule id pis =>
      obtain ⟨hout0, herr0, sd', hsd', hrules'⟩ := marketRule_step st sd hsd id pis
      have hreg' : toString M ∈ sd'.registered_market_rules := by
        rw [hrules']
        exact List.mem_insert_iff.mpr (Or.inr hreg)
      simp only [runEvents, stepEvent, herr0, hout0]
      simpa [herr0, hout0] using ih _ sd' hsd' hreg' hcr

/-- Witness for the amended C5: with rule 26 already registered, a later
`contractDetails` carrying rule token 26 followed by another `marketRule`
response issues no `reqMarketRule(26)`. -/
theorem claim_C5_amended_witness :
    OutMsg.reqMarketRule 26 ∉
      (runEvents registeredState
        [Event.contractDetails 1 (testContractDetails "26"),
          Event.marketRule 7 []]).2.1 :=
  claim_C5_amended 26
    [Event.contractDetails 1 (testContractDetails "26"), Event.marketRule 7 []]
    registeredState ⟨⟨[], []⟩, [], ["26"], []⟩ rfl (by decide) (by decide)

/-! The canonical-token guard of the amended market-rule theorem is checked
against the full `int()` model: tokens Python would parse to the rule id
through whitespace stripping, a sign or PEP 515 underscores are aliases of the
decimal rendering and are excluded by the guard, while tokens parsing to a
different id are unconstrained. -/

example : canonicalTokensFor 26
    (Event.contractDetails 1 (testContractDetails " 26")) = false := by decide

example : canonicalTokensFor 26
    (Event.contractDetails 1 (testContractDetails "2_6")) = false := by decide

example : canonicalTokensFor 26
    (Event.contractDetails 1 (testContractDetails "+26")) = false := by decide

example : canonicalTokensFor 26
    (Event.contractDetails 1 (testContractDetails "26,027")) = true := by decide
